import Mathlib

/-!
Shallow embedding of the OndeAtende Manchester triage core
(backend/apps/triage/manchester.py, models.py, routing.py) and proofs
about the frozen claims over it.

Python dicts are modelled as association lists (first-match lookup),
Python numbers as rationals, raised exceptions as the error branch of
an Except value.
-/

/-- Values that can appear in the vital-signs mapping.  Python is
dynamically typed; the code paths under study only distinguish numbers
(int or float, compared numerically) from non-numeric values such as
strings. -/
inductive PyVal where
  | num (q : Rat)
  | str (s : String)
deriving DecidableEq, Repr

/-- True when the value is numeric. -/
def PyVal.isNum : PyVal → Bool
  | .num _ => true
  | .str _ => false

/-- A vital-signs criterion value: in the source these are usually
condition strings, but one catalog entry stores a nested dict, which
the isinstance check in check_vital_signs_criteria skips. -/
inductive CondVal where
  | s (c : String)
  | other
deriving DecidableEq, Repr

/-- TriagePriority from manchester.py: the five Manchester tiers. -/
inductive TriagePriority where
  | RED
  | ORANGE
  | YELLOW
  | GREEN
  | BLUE
deriving DecidableEq, Repr

/-- First component of the Python enum value: the numeric rank
(1 = most severe). -/
def TriagePriority.level : TriagePriority → Nat
  | .RED => 1
  | .ORANGE => 2
  | .YELLOW => 3
  | .GREEN => 4
  | .BLUE => 5

/-- Second component of the Python enum value: target wait minutes. -/
def TriagePriority.target_minutes : TriagePriority → Nat
  | .RED => 0
  | .ORANGE => 10
  | .YELLOW => 60
  | .GREEN => 120
  | .BLUE => 240

/-- Discriminator dataclass from manchester.py. -/
structure Discriminator where
  id : String
  description : String
  priority : TriagePriority
  questions : List String
  pediatric_modifier : Option (List (String × TriagePriority)) := none
  vital_signs_criteria : Option (List (String × CondVal)) := none
deriving DecidableEq, Repr

/-- Flowchart dataclass from manchester.py. -/
structure Flowchart where
  id : String
  name : String
  description : String
  discriminators : List Discriminator
  age_specific : Bool := false
  obstetric_specific : Bool := false
deriving DecidableEq, Repr

/-- Occurrence test of a character sequence inside another, used to
model the Python in operator on strings. -/
def containsSeq (needle : List Char) : List Char → Bool
  | [] => needle.isEmpty
  | c :: rest => needle.isPrefixOf (c :: rest) || containsSeq needle rest

/-- Fuel-driven scanner behind pySplit: at each position, a separator
occurrence closes the current piece and the scan resumes after it.
The fuel, instantiated with the input length, dominates the scan
because each step consumes at least one character. -/
def splitGo (sep : List Char) : Nat → List Char → List Char → List (List Char)
  | _, [], cur => [cur.reverse]
  | 0, l, cur => [cur.reverse ++ l]
  | fuel + 1, c :: rest, cur =>
    if sep.isPrefixOf (c :: rest) then
      cur.reverse :: splitGo sep fuel ((c :: rest).drop sep.length) []
    else
      splitGo sep fuel rest (c :: cur)

/-- The Python str.split method with an explicit nonempty separator:
the pieces between non-overlapping left-to-right separator
occurrences. -/
def pySplit (s sep : String) : List String :=
  if sep.toList.isEmpty then [s]
  else (splitGo sep.toList s.toList.length s.toList []).map String.mk

/-- The Python str.strip method with no argument: remove leading and
trailing whitespace. -/
def pyStrip (s : String) : String :=
  String.mk (((s.toList.dropWhile Char.isWhitespace).reverse.dropWhile
    Char.isWhitespace).reverse)

/-- Character class of the first regex group in evaluate_condition. -/
def isCmpChar (c : Char) : Bool := c = '<' || c = '>' || c = '='

/-- Numeric value of a digit run. -/
def digitsToNat (ds : List Char) : Nat :=
  ds.foldl (fun n c => 10 * n + (c.toNat - '0'.toNat)) 0

/-- Rational denoted by an integer digit run and a fractional digit run. -/
def ratOfDigits (ip fp : List Char) : Rat :=
  (digitsToNat ip : Rat) + (digitsToNat fp : Rat) / ((10 : Rat) ^ fp.length)

/-- Matching of the anchored Python regex against
the start of the condition string: a nonempty run of comparison
characters followed by a nonempty digit run, an optional dot and a
possibly empty digit run; anything after the match is ignored.
Returns the operator text and the threshold. -/
def condMatch (condition : String) : Option (String × Rat) :=
  let cs := condition.toList
  let op := cs.takeWhile isCmpChar
  let rest := cs.dropWhile isCmpChar
  if op.isEmpty then none
  else
    let ip := rest.takeWhile Char.isDigit
    if ip.isEmpty then none
    else
      let rest2 := rest.dropWhile Char.isDigit
      let fp := match rest2 with
        | '.' :: r => r.takeWhile Char.isDigit
        | _ => []
      some (String.mk op, ratOfDigits ip fp)

/-- The Python comparison value OP threshold: numeric values compare
numerically; comparing a string against the float threshold raises
TypeError, modelled as the error branch. -/
def applyCmp (value : PyVal) (f : Rat → Rat → Bool) (t : Rat) : Except String Bool :=
  match value with
  | .num q => .ok (f q t)
  | .str _ => .error "TypeError: < not supported between instances of str and float"

/-- evaluate_condition from manchester.py: parse the condition with the
anchored regex; on no match return False; otherwise dispatch on the
operator group, with an unrecognised operator giving False without any
comparison being performed. -/
def evaluate_condition (value : PyVal) (condition : String) : Except String Bool :=
  match condMatch condition with
  | none => .ok false
  | some (op, t) =>
    if op = "<" then applyCmp value (fun a b => decide (a < b)) t
    else if op = "<=" then applyCmp value (fun a b => decide (a ≤ b)) t
    else if op = ">" then applyCmp value (fun a b => decide (a > b)) t
    else if op = ">=" then applyCmp value (fun a b => decide (a ≥ b)) t
    else if op = "==" then applyCmp value (fun a b => decide (a = b)) t
    else .ok false

/-- The generator fed to any() in the or-branch of
check_vital_signs_criteria: evaluate each stripped sub-condition in
order, short-circuiting on the first true; an exception propagates. -/
def evalAnyCond (value : PyVal) : List String → Except String Bool
  | [] => .ok false
  | c :: rest => do
    let b ← evaluate_condition value (pyStrip c)
    if b then .ok true else evalAnyCond value rest

/-- The generator fed to all() in the and-branch: evaluate each
stripped sub-condition in order, short-circuiting on the first
false; an exception propagates. -/
def evalAllCond (value : PyVal) : List String → Except String Bool
  | [] => .ok true
  | c :: rest => do
    let b ← evaluate_condition value (pyStrip c)
    if b then evalAllCond value rest else .ok false

/-- Substring test used by the Python expression testing whether the
two-letter word or occurs anywhere in the condition string. -/
def containsOr (s : String) : Bool := containsSeq "or".toList s.toList

/-- Substring test for the three-letter word and. -/
def containsAnd (s : String) : Bool := containsSeq "and".toList s.toList

/-- check_vital_signs_criteria from manchester.py: walk the criteria
items in order; a parameter absent from the vital-signs mapping is
skipped, a non-string condition fails the isinstance check and is
skipped; otherwise the condition is an or-combination, an
and-combination or atomic, and a satisfied criterion returns True at
once.  Falls through to False. -/
def check_vital_signs_criteria (vital_signs : List (String × PyVal)) :
    List (String × CondVal) → Except String Bool
  | [] => .ok false
  | (param, cond) :: rest =>
    match vital_signs.lookup param with
    | none => check_vital_signs_criteria vital_signs rest
    | some value =>
      match cond with
      | .other => check_vital_signs_criteria vital_signs rest
      | .s condition =>
        if containsOr condition then do
          let b ← evalAnyCond value (pySplit condition " or ")
          if b then .ok true else check_vital_signs_criteria vital_signs rest
        else if containsAnd condition then do
          let b ← evalAllCond value (pySplit condition " and ")
          if b then .ok true else check_vital_signs_criteria vital_signs rest
        else do
          let b ← evaluate_condition value condition
          if b then .ok true else check_vital_signs_criteria vital_signs rest

/-- The general discriminator catalog built once in the constructor of
ManchesterTriageSystem. -/
def general_discriminators : List Discriminator :=
  [ { id := "airway_compromised"
    , description := "Via aérea comprometida"
    , priority := .RED
    , questions :=
        [ "Paciente consegue falar?"
        , "Há obstrução visível na via aérea?"
        , "Paciente está engasgado?"
        , "Há estridor audível?" ]
    , vital_signs_criteria := some [("spo2", .s "<90")] }
  , { id := "inadequate_breathing"
    , description := "Respiração inadequada"
    , priority := .RED
    , questions :=
        [ "Respiração ausente ou gasping?"
        , "Frequência respiratória <10 ou >36?"
        , "Uso extremo de musculatura acessória?"
        , "Cianose central presente?" ]
    , vital_signs_criteria :=
        some [("respiratory_rate", .s "<10 or >36"), ("spo2", .s "<90")] }
  , { id := "shock"
    , description := "Sinais de choque"
    , priority := .RED
    , questions :=
        [ "Pulso fino e rápido?"
        , "Tempo de enchimento capilar >2 segundos?"
        , "PA sistólica <90mmHg?"
        , "Alteração aguda do nível de consciência?" ]
    , vital_signs_criteria :=
        some [ ("systolic_bp", .s "<90")
             , ("heart_rate", .s ">120")
             , ("capillary_refill", .s ">2") ] }
  , { id := "unresponsive"
    , description := "Não responsivo"
    , priority := .RED
    , questions :=
        [ "Paciente não responde a estímulos verbais?"
        , "Glasgow <9?"
        , "AVPU = U (unresponsive)?" ]
    , vital_signs_criteria := some [("gcs", .s "<9")] }
  , { id := "severe_pain"
    , description := "Dor severa"
    , priority := .ORANGE
    , questions :=
        [ "Dor 8-10 na escala de dor?"
        , "Dor torácica de início súbito?"
        , "Dor abdominal intensa com rigidez?" ]
    , vital_signs_criteria := some [("pain_scale", .s ">=8")] }
  , { id := "altered_consciousness"
    , description := "Alteração da consciência"
    , priority := .ORANGE
    , questions :=
        [ "Confusão mental nova?"
        , "Glasgow 9-12?"
        , "Desorientação têmporo-espacial?" ]
    , vital_signs_criteria := some [("gcs", .s "9-12")] }
  , { id := "moderate_pain"
    , description := "Dor moderada"
    , priority := .YELLOW
    , questions :=
        [ "Dor 4-7 na escala de dor?"
        , "Dor persistente há mais de 6 horas?"
        , "Dor interferindo nas atividades?" ]
    , vital_signs_criteria := some [("pain_scale", .s "4-7")] }
  , { id := "persistent_vomiting"
    , description := "Vômitos persistentes"
    , priority := .YELLOW
    , questions :=
        [ "Mais de 3 episódios de vômito?"
        , "Incapaz de tolerar líquidos?"
        , "Sinais de desidratação?" ] } ]

/-- The flowchart catalog built once in the constructor (the seven
flowcharts present in the source), keyed by flowchart id as in the
Python dict. -/
def flowcharts : List (String × Flowchart) :=
  [ ("chest_pain",
     { id := "chest_pain"
     , name := "Dor Torácica"
     , description := "Avaliação de pacientes com dor torácica"
     , discriminators :=
         [ { id := "cardiac_pain"
           , description := "Dor cardíaca típica"
           , priority := .ORANGE
           , questions :=
               [ "Dor em aperto/opressão?"
               , "Irradiação para braço esquerdo/mandíbula?"
               , "Associada a náuseas/sudorese?"
               , "História de cardiopatia?" ]
           , vital_signs_criteria :=
               some [("ecg_changes", .s "st_elevation or new_lbbb")] }
         , { id := "pleuritic_pain"
           , description := "Dor pleurítica"
           , priority := .YELLOW
           , questions :=
               [ "Dor piora com respiração profunda?"
               , "Dor em pontada?"
               , "Tosse associada?" ] } ] })
  , ("shortness_breath",
     { id := "shortness_breath"
     , name := "Falta de Ar"
     , description := "Avaliação de pacientes com dispneia"
     , discriminators :=
         [ { id := "stridor"
           , description := "Estridor"
           , priority := .RED
           , questions :=
               [ "Ruído agudo audível na inspiração?"
               , "História de corpo estranho?"
               , "Edema de face/língua?" ] }
         , { id := "wheeze"
           , description := "Sibilância"
           , priority := .YELLOW
           , questions :=
               [ "Chiado no peito audível?"
               , "História de asma/DPOC?"
               , "Uso de broncodilatador?" ]
           , vital_signs_criteria :=
               some [("peak_flow", .s "<70% predicted")] } ] })
  , ("fever_child",
     { id := "fever_child"
     , name := "Criança Febril"
     , description := "Avaliação de crianças com febre"
     , age_specific := true
     , discriminators :=
         [ { id := "meningism"
           , description := "Sinais meníngeos"
           , priority := .RED
           , questions :=
               [ "Rigidez de nuca?"
               , "Petéquias/púrpura?"
               , "Fotofobia intensa?"
               , "Kernig/Brudzinski positivo?" ]
           , pediatric_modifier :=
               some [("<3_months", .RED), ("3-6_months", .ORANGE)] }
         , { id := "high_fever"
           , description := "Febre alta"
           , priority := .YELLOW
           , questions :=
               [ "Temperatura >39°C?"
               , "Febre há mais de 5 dias?"
               , "Resposta ruim a antitérmicos?" ]
           , vital_signs_criteria :=
               some [("temperature", .s ">39"), ("age_modifier", .other)] } ] })
  , ("major_trauma",
     { id := "major_trauma"
     , name := "Trauma Maior"
     , description := "Avaliação de politrauma"
     , discriminators :=
         [ { id := "catastrophic_hemorrhage"
           , description := "Hemorragia catastrófica"
           , priority := .RED
           , questions :=
               [ "Sangramento arterial visível?"
               , "Amputação traumática?"
               , "Pool de sangue >1 litro?"
               , "Torniquete aplicado?" ] }
         , { id := "mechanism_injury"
           , description := "Mecanismo de alta energia"
           , priority := .ORANGE
           , questions :=
               [ "Queda >3 metros (>6m se criança)?"
               , "Colisão >30km/h?"
               , "Ejeção do veículo?"
               , "Morte no mesmo acidente?"
               , "Atropelamento?" ] } ] })
  , ("abdominal_pain",
     { id := "abdominal_pain"
     , name := "Dor Abdominal"
     , description := "Avaliação de dor abdominal"
     , discriminators :=
         [ { id := "peritonitis"
           , description := "Sinais de peritonite"
           , priority := .ORANGE
           , questions :=
               [ "Abdome rígido em tábua?"
               , "Defesa involuntária?"
               , "Descompressão brusca positiva?"
               , "Ausência de ruídos hidroaéreos?" ] }
         , { id := "biliary_colic"
           , description := "Cólica biliar"
           , priority := .YELLOW
           , questions :=
               [ "Dor em hipocôndrio direito?"
               , "Murphy positivo?"
               , "Icterícia associada?"
               , "História de colelitíase?" ] } ] })
  , ("headache",
     { id := "headache"
     , name := "Cefaleia"
     , description := "Avaliação de dor de cabeça"
     , discriminators :=
         [ { id := "thunderclap"
           , description := "Cefaleia em trovoada"
           , priority := .RED
           , questions :=
               [ "Início súbito (<1 minuto)?"
               , "Pior dor de cabeça da vida?"
               , "Rigidez nucal associada?"
               , "Alteração de consciência?" ] }
         , { id := "neurological_deficit"
           , description := "Déficit neurológico"
           , priority := .ORANGE
           , questions :=
               [ "Fraqueza focal?"
               , "Alteração visual?"
               , "Disartria?"
               , "Ataxia?" ] } ] })
  , ("pregnancy_labor",
     { id := "pregnancy_labor"
     , name := "Gravidez e Trabalho de Parto"
     , description := "Avaliação obstétrica"
     , obstetric_specific := true
     , discriminators :=
         [ { id := "imminent_delivery"
           , description := "Parto iminente"
           , priority := .RED
           , questions :=
               [ "Cabeça do bebê visível?"
               , "Vontade incontrolável de empurrar?"
               , "Contrações <2 minutos?"
               , "Ruptura de bolsa com mecônio espesso?" ] }
         , { id := "vaginal_bleeding_pregnancy"
           , description := "Sangramento vaginal na gravidez"
           , priority := .ORANGE
           , questions :=
               [ "Sangramento vermelho vivo?"
               , "Mais que menstruação normal?"
               , "Dor abdominal intensa?"
               , "História de placenta prévia?" ]
           , vital_signs_criteria :=
               some [("gestational_age", .s ">20 weeks")] } ] }) ]

/-- The direct-answer half of a loop iteration inside
check_general_discriminators: update the running pair when the answer
for this discriminator is True and the discriminator outranks it. -/
def genStepAns (answers : List (String × Bool))
    (d : Discriminator) (acc : TriagePriority × String) : TriagePriority × String :=
  if (answers.lookup d.id).getD false ∧ d.priority.level < acc.1.level
  then (d.priority, d.description) else acc

/-- The vital-signs half of a loop iteration: run only when the
mapping and the criteria are both truthy; a raised exception aborts
the computation; a True check updates the running pair when the
discriminator outranks it, tagging the reason with the vital-signs
marker. -/
def genStepVitals (vital_signs : Option (List (String × PyVal)))
    (d : Discriminator) (acc : TriagePriority × String) :
    Except String (TriagePriority × String) :=
  match vital_signs, d.vital_signs_criteria with
  | some vs, some crit =>
    if vs.isEmpty ∨ crit.isEmpty then .ok acc
    else do
      let b ← check_vital_signs_criteria vs crit
      .ok (if b ∧ d.priority.level < acc.1.level
           then (d.priority, d.description ++ " (sinais vitais)") else acc)
  | _, _ => .ok acc

/-- A full iteration: the direct-answer update feeds the vital-signs
half. -/
def genStep (answers : List (String × Bool))
    (vital_signs : Option (List (String × PyVal)))
    (d : Discriminator) (acc : TriagePriority × String) :
    Except String (TriagePriority × String) :=
  genStepVitals vital_signs d (genStepAns answers d acc)

/-- The loop of check_general_discriminators: iterate genStep over the
catalog, threading the running most-severe pair. -/
def checkGenLoop (answers : List (String × Bool))
    (vital_signs : Option (List (String × PyVal))) :
    List Discriminator → TriagePriority × String →
    Except String (TriagePriority × String)
  | [], acc => .ok acc
  | d :: rest, acc => do
    let acc2 ← genStep answers vital_signs d acc
    checkGenLoop answers vital_signs rest acc2

/-- check_general_discriminators from manchester.py: fold the loop over
the general catalog starting from the BLUE default. -/
def check_general_discriminators (answers : List (String × Bool))
    (vital_signs : Option (List (String × PyVal))) :
    Except String (TriagePriority × String) :=
  checkGenLoop answers vital_signs general_discriminators
    (.BLUE, "Sem sinais de alarme identificados")

/-- get_emergency_recommendations from manchester.py. -/
def get_emergency_recommendations (reason : String) : List String :=
  [ "EMERGÊNCIA: " ++ reason
  , "ATENDIMENTO IMEDIATO - RISCO DE VIDA"
  , "Acionar código vermelho"
  , "Preparar sala de ressuscitação"
  , "Equipe completa em standby"
  , "Via aérea avançada disponível"
  , "Acesso venoso central se necessário" ]

/-- The tail of calculate_priority after the general pass: a RED
outcome returns at once with the emergency recommendations.
Otherwise the method looks up the flowchart and then invokes a method
of self that the class never defines, raising AttributeError: a
missing flowchart reaches the undefined generic-flowchart builder, and
any found flowchart reaches the undefined flowchart-discriminator
checker.  The age, pregnancy and gestation arguments of the method are
consumed only by the undefined call and so never influence the
result. -/
def calc_after_general (complaint : String) (priority : TriagePriority)
    (reason : String) : Except String (TriagePriority × String × List String) :=
  if priority = TriagePriority.RED then
    .ok (priority, reason, get_emergency_recommendations reason)
  else
    match flowcharts.lookup complaint with
    | none =>
      .error "AttributeError: ManchesterTriageSystem object has no attribute _get_generic_flowchart"
    | some _ =>
      .error "AttributeError: ManchesterTriageSystem object has no attribute _check_flowchart_discriminators"

/-- calculate_priority from manchester.py: the general pass feeds the
tail of the method. -/
def calculate_priority (complaint : String)
    (discriminator_answers : List (String × Bool))
    (vital_signs : Option (List (String × PyVal)))
    (patient_age_months : Option Nat)
    (is_pregnant : Bool)
    (gestational_weeks : Option Nat) :
    Except String (TriagePriority × String × List String) := do
  let _ := patient_age_months
  let _ := is_pregnant
  let _ := gestational_weeks
  let (priority, reason) ← check_general_discriminators discriminator_answers vital_signs
  calc_after_general complaint priority reason

/-- The fields of the TriageSession Django model that the queue logic
reads.  The primary key id stands for the database row identity;
arrival_time is a totally ordered timestamp. -/
structure TriageSession where
  id : Nat
  facility : Nat
  status : String
  priority_level : Nat
  arrival_time : Nat
deriving DecidableEq, Repr

/-- The filter predicate of the ORM query inside
calculate_queue_position: same facility, status WAITING, and strictly
lower priority level or equal level with strictly earlier arrival. -/
def queueAhead (s x : TriageSession) : Bool :=
  x.facility == s.facility && x.status == "WAITING" &&
    (x.priority_level < s.priority_level ||
      (x.priority_level == s.priority_level && x.arrival_time < s.arrival_time))

/-- calculate_queue_position from models.py: the count of rows
matching the filter over the whole session table, plus one.  The
session table is passed explicitly as the database snapshot. -/
def calculate_queue_position (db : List TriageSession) (s : TriageSession) : Nat :=
  (db.filter (queueAhead s)).length + 1

/-- Modelled from the spec: the sentence defining position counts
other WAITING encounters with lower tier rank, or equal rank and
earlier arrival, at the same facility.  Stated independently of the
source predicate so the two can be compared. -/
def specAheadOf (s x : TriageSession) : Prop :=
  x ≠ s ∧ x.status = "WAITING" ∧ x.facility = s.facility ∧
    (x.priority_level < s.priority_level ∨
      (x.priority_level = s.priority_level ∧ x.arrival_time < s.arrival_time))

instance (s x : TriageSession) : Decidable (specAheadOf s x) := by
  unfold specAheadOf; infer_instance

/-- The avg_times dict of update_wait_time_estimate: average minutes
per queue slot for each priority level. -/
def avg_times : List (Nat × Nat) := [(1, 5), (2, 15), (3, 30), (4, 45), (5, 60)]

/-- The dict.get call with default 30 used for the base time. -/
def base_time (priority_level : Nat) : Nat :=
  (avg_times.lookup priority_level).getD 30

/-- update_wait_time_estimate from models.py: patients ahead times the
per-tier base, scaled by 1.5 when the facility occupancy percent
exceeds 90.  The Python int() of the float product truncates toward
zero, which on these nonnegative multiples equals the natural floor of
3n/2, written here as Nat division. -/
def update_wait_time_estimate (db : List TriageSession) (s : TriageSession)
    (current_occupancy_percent : Int) : Nat :=
  let ahead_count := calculate_queue_position db s - 1
  let estimated_wait := ahead_count * base_time s.priority_level
  if current_occupancy_percent > 90 then estimated_wait * 3 / 2 else estimated_wait

/-- The fields of the Facility Django model read by the routing
scorer. -/
structure Facility where
  id : Nat
  facility_type : String
  is_active : Bool
  is_accepting_emergencies : Bool
  is_accepting_walkins : Bool
  resources : List String
  current_occupancy_percent : Int
  average_wait_time_minutes : Nat
deriving DecidableEq, Repr

/-- The fields of the MedicalShift model read by the routing queries;
shift_date is a day index and specialty_code the related specialty
code. -/
structure MedicalShift where
  facility : Nat
  specialty_code : String
  shift_date : Nat
  status : String
deriving DecidableEq, Repr

/-- The shift condition shared by the filter in filter_by_specialty
and the exists query in calculate_facility_score: a shift of this
facility whose specialty code is among the required ones, dated today,
with ACTIVE status. -/
def specialty_available (shifts : List MedicalShift) (today : Nat)
    (f : Facility) (specialties : List String) : Bool :=
  shifts.any fun sh =>
    sh.facility == f.id && specialties.contains sh.specialty_code &&
      sh.shift_date == today && sh.status == "ACTIVE"

/-- filter_by_specialty from routing.py: keep only facilities with a
matching staffed shift today.  The ORM distinct() removes only
join-induced duplicates, which a list filter never introduces. -/
def filter_by_specialty (shifts : List MedicalShift) (today : Nat)
    (facilities : List Facility) (specialties : List String) : List Facility :=
  facilities.filter fun f => specialty_available shifts today f specialties

/-- Block 1 of calculate_facility_score: the distance penalty, present
only when both coordinates are truthy; the distance itself comes from
the haversine helper of the Facility model and is passed here already
computed. -/
def dist_penalty (priority_color : String) (distance : Option Rat) : Rat :=
  match distance with
  | none => 0
  | some d =>
    if priority_color = "RED" then d * 5
    else if priority_color = "ORANGE" then d * 3
    else d * (3 / 2)

/-- Block 2 of calculate_facility_score: the occupancy penalty
thresholds. -/
def occupancy_penalty (f : Facility) : Rat :=
  if f.current_occupancy_percent > 90 then 30
  else if f.current_occupancy_percent > 70 then 15
  else if f.current_occupancy_percent > 50 then 5
  else 0

/-- Block 3 of calculate_facility_score: the +25 specialty bonus,
granted when the required list is nonempty and a matching staffed
shift exists today. -/
def specialty_bonus (shifts : List MedicalShift) (today : Nat)
    (f : Facility) (specialties : List String) : Rat :=
  if specialties ≠ [] ∧ specialty_available shifts today f specialties then 25 else 0

/-- Block 4 of calculate_facility_score: the facility-type bonus keyed
on the priority color. -/
def type_bonus (priority_color : String) (f : Facility) : Rat :=
  if priority_color = "RED" ∨ priority_color = "ORANGE" then
    if f.facility_type = "HOSPITAL" then 20
    else if f.facility_type = "PS" then 15
    else 0
  else if priority_color = "GREEN" ∨ priority_color = "BLUE" then
    if f.facility_type = "UBS" then 10 else 0
  else 0

/-- Block 5 of calculate_facility_score: the special-resources bonus
keyed on the flowchart. -/
def resource_bonus (flowchart : String) (f : Facility) : Rat :=
  (if flowchart = "chest_pain" ∧ f.resources.contains "hemodinamica" then 15 else 0) +
    (if flowchart = "major_trauma" ∧ f.resources.contains "centro_trauma" then 20 else 0)

/-- The running score of calculate_facility_score before the final
clamp: 100 plus and minus the five additive blocks, in the order the
Python statements apply them. -/
def facility_score_raw (f : Facility) (priority_color flowchart : String)
    (distance : Option Rat) (specialties : List String)
    (shifts : List MedicalShift) (today : Nat) : Rat :=
  100 - dist_penalty priority_color distance - occupancy_penalty f +
    specialty_bonus shifts today f specialties +
    type_bonus priority_color f + resource_bonus flowchart f

/-- calculate_facility_score from routing.py: the clamped score
max(0, score).  The details dict (distance, has_specialty, wait_time)
carries no further logic and is omitted. -/
def calculate_facility_score (f : Facility) (priority_color flowchart : String)
    (distance : Option Rat) (specialties : List String)
    (shifts : List MedicalShift) (today : Nat) : Rat :=
  max 0 (facility_score_raw f priority_color flowchart distance specialties shifts today)

/-! ### Helper lemmas about the condition evaluator -/

/-- Evaluating any condition over a numeric value never raises. -/
theorem evaluate_condition_num_ok (q : Rat) (c : String) :
    ∃ b, evaluate_condition (.num q) c = .ok b := by
  unfold evaluate_condition
  cases condMatch c with
  | none => exact ⟨false, rfl⟩
  | some p =>
    obtain ⟨op, t⟩ := p
    simp only
    split
    · exact ⟨_, rfl⟩
    · split
      · exact ⟨_, rfl⟩
      · split
        · exact ⟨_, rfl⟩
        · split
          · exact ⟨_, rfl⟩
          · split
            · exact ⟨_, rfl⟩
            · exact ⟨false, rfl⟩

/-- The or-chain over a numeric value never raises. -/
theorem evalAnyCond_num_ok (q : Rat) (cs : List String) :
    ∃ b, evalAnyCond (.num q) cs = .ok b := by
  induction cs with
  | nil => exact ⟨false, rfl⟩
  | cons c rest ih =>
    obtain ⟨b, hb⟩ := evaluate_condition_num_ok q (pyStrip c)
    obtain ⟨b2, hb2⟩ := ih
    cases b with
    | true => exact ⟨true, by rw [evalAnyCond, hb]; rfl⟩
    | false => exact ⟨b2, by rw [evalAnyCond, hb]; exact hb2⟩

/-- The and-chain over a numeric value never raises. -/
theorem evalAllCond_num_ok (q : Rat) (cs : List String) :
    ∃ b, evalAllCond (.num q) cs = .ok b := by
  induction cs with
  | nil => exact ⟨true, rfl⟩
  | cons c rest ih =>
    obtain ⟨b, hb⟩ := evaluate_condition_num_ok q (pyStrip c)
    obtain ⟨b2, hb2⟩ := ih
    cases b with
    | true => exact ⟨b2, by rw [evalAllCond, hb]; exact hb2⟩
    | false => exact ⟨false, by rw [evalAllCond, hb]; rfl⟩

/-- A successful association-list lookup returns a stored value. -/
theorem lookup_mem_val {α β : Type} [BEq α] {l : List (α × β)} {k : α} {v : β}
    (h : l.lookup k = some v) : ∃ k2, (k2, v) ∈ l := by
  induction l with
  | nil => simp [List.lookup] at h
  | cons p rest ih =>
    obtain ⟨k3, v3⟩ := p
    rw [List.lookup] at h
    cases hk : (k == k3) with
    | true =>
      rw [hk] at h
      have h2 : v3 = v := by injection h
      subst h2
      exact ⟨k3, List.mem_cons_self _ _⟩
    | false =>
      rw [hk] at h
      obtain ⟨k2, hk2⟩ := ih h
      exact ⟨k2, List.mem_cons_of_mem _ hk2⟩

/-- When every stored vital-sign value is numeric, the criteria check
never raises. -/
theorem check_vital_signs_criteria_num_ok
    (vs : List (String × PyVal))
    (hnum : ∀ pv ∈ vs, (Prod.snd pv).isNum = true) :
    ∀ crit : List (String × CondVal), ∃ b, check_vital_signs_criteria vs crit = .ok b := by
  intro crit
  induction crit with
  | nil => exact ⟨false, rfl⟩
  | cons pc rest ih =>
    obtain ⟨param, cond⟩ := pc
    obtain ⟨b2, hb2⟩ := ih
    rw [check_vital_signs_criteria]
    cases hv : vs.lookup param with
    | none => exact ⟨b2, hb2⟩
    | some value =>
      have hnumv : value.isNum = true := by
        obtain ⟨k2, hk2⟩ := lookup_mem_val hv
        exact hnum (k2, value) hk2
      obtain ⟨q, hq⟩ : ∃ q, value = .num q := by
        cases value with
        | num q => exact ⟨q, rfl⟩
        | str s => simp [PyVal.isNum] at hnumv
      subst hq
      cases cond with
      | other => exact ⟨b2, hb2⟩
      | s condition =>
        simp only
        split
        · obtain ⟨b, hb⟩ := evalAnyCond_num_ok q (pySplit condition " or ")
          cases b with
          | true => exact ⟨true, by rw [hb]; rfl⟩
          | false => exact ⟨b2, by rw [hb]; exact hb2⟩
        · split
          · obtain ⟨b, hb⟩ := evalAllCond_num_ok q (pySplit condition " and ")
            cases b with
            | true => exact ⟨true, by rw [hb]; rfl⟩
            | false => exact ⟨b2, by rw [hb]; exact hb2⟩
          · obtain ⟨b, hb⟩ := evaluate_condition_num_ok q condition
            cases b with
            | true => exact ⟨true, by rw [hb]; rfl⟩
            | false => exact ⟨b2, by rw [hb]; exact hb2⟩

/-- The or-chain over a numeric value yields true exactly when some
atomic sub-condition evaluates true. -/
theorem evalAnyCond_iff (q : Rat) (cs : List String) :
    evalAnyCond (.num q) cs = .ok true ↔
      ∃ c ∈ cs, evaluate_condition (.num q) (pyStrip c) = .ok true := by
  induction cs with
  | nil => simp [evalAnyCond]
  | cons c rest ih =>
    obtain ⟨b, hb⟩ := evaluate_condition_num_ok q (pyStrip c)
    cases b with
    | true =>
      constructor
      · intro _
        exact ⟨c, List.mem_cons_self _ _, hb⟩
      · intro _
        rw [evalAnyCond, hb]; rfl
    | false =>
      constructor
      · intro h
        rw [evalAnyCond, hb] at h
        obtain ⟨c2, hc2, he⟩ := ih.mp h
        exact ⟨c2, List.mem_cons_of_mem _ hc2, he⟩
      · intro h
        obtain ⟨c2, hc2, he⟩ := h
        rcases List.mem_cons.mp hc2 with rfl | hmem
        · rw [hb] at he
          injection he with he2
          exact Bool.noConfusion he2
        · rw [evalAnyCond, hb]
          exact ih.mpr ⟨c2, hmem, he⟩

/-- The and-chain over a numeric value yields true exactly when every
atomic sub-condition evaluates true. -/
theorem evalAllCond_iff (q : Rat) (cs : List String) :
    evalAllCond (.num q) cs = .ok true ↔
      ∀ c ∈ cs, evaluate_condition (.num q) (pyStrip c) = .ok true := by
  induction cs with
  | nil => simp [evalAllCond]
  | cons c rest ih =>
    obtain ⟨b, hb⟩ := evaluate_condition_num_ok q (pyStrip c)
    cases b with
    | true =>
      constructor
      · intro h c2 hc2
        rw [evalAllCond, hb] at h
        rcases List.mem_cons.mp hc2 with rfl | hmem
        · exact hb
        · exact ih.mp h c2 hmem
      · intro h
        rw [evalAllCond, hb]
        exact ih.mpr fun c2 hc2 => h c2 (List.mem_cons_of_mem _ hc2)
    | false =>
      constructor
      · intro h
        rw [evalAllCond, hb] at h
        have h2 : (Except.ok false : Except String Bool) = .ok true := h
        injection h2 with h3
        exact Bool.noConfusion h3
      · intro h
        have h2 := h c (List.mem_cons_self _ _)
        rw [hb] at h2
        injection h2 with h3
        exact Bool.noConfusion h3

/-! ### Trigger predicates and invariants of the general pass -/

/-- The direct-answer trigger of the loop: answers.get with default
False. -/
def answer_triggered (answers : List (String × Bool)) (d : Discriminator) : Bool :=
  (answers.lookup d.id).getD false

/-- True exactly on the ok-true result. -/
def exceptIsOkTrue : Except String Bool → Bool
  | .ok true => true
  | _ => false

/-- The vital-signs trigger of the loop: the mapping and the criteria
are both truthy and the criteria check succeeds with True. -/
def vitals_triggered (vital_signs : Option (List (String × PyVal)))
    (d : Discriminator) : Bool :=
  match vital_signs, d.vital_signs_criteria with
  | some vs, some crit =>
    !vs.isEmpty && !crit.isEmpty && exceptIsOkTrue (check_vital_signs_criteria vs crit)
  | _, _ => false

/-- A discriminator fires when either trigger does. -/
def discriminator_triggered (answers : List (String × Bool))
    (vital_signs : Option (List (String × PyVal))) (d : Discriminator) : Bool :=
  answer_triggered answers d || vitals_triggered vital_signs d

/-- All values of the optional vital-signs mapping are numeric. -/
def numericVitals : Option (List (String × PyVal)) → Prop
  | none => True
  | some vs => ∀ pv ∈ vs, (Prod.snd pv).isNum = true

instance (o : Option (List (String × PyVal))) : Decidable (numericVitals o) := by
  cases o <;> unfold numericVitals <;> infer_instance

/-- Every tier rank is at least one. -/
theorem level_ge_one (p : TriagePriority) : 1 ≤ p.level := by
  cases p <;> decide

/-- A tier other than RED has rank strictly above one. -/
theorem one_lt_level_of_ne_red {p : TriagePriority} (h : p ≠ .RED) : 1 < p.level := by
  cases p with
  | RED => exact absurd rfl h
  | ORANGE => decide
  | YELLOW => decide
  | GREEN => decide
  | BLUE => decide

/-- An ok-true check is exactly what the ok-true test accepts. -/
theorem exceptIsOkTrue_eq {e : Except String Bool} (h : exceptIsOkTrue e = true) :
    e = .ok true := by
  cases e with
  | error msg => simp [exceptIsOkTrue] at h
  | ok b => cases b with
    | true => rfl
    | false => simp [exceptIsOkTrue] at h

/-- The answer half never dethrones a RED running pair. -/
theorem genStepAns_red_stable (answers : List (String × Bool)) (d : Discriminator)
    (r : String) : genStepAns answers d (.RED, r) = (.RED, r) := by
  unfold genStepAns
  rw [if_neg]
  rintro ⟨-, h⟩
  have h2 : d.priority.level < 1 := h
  exact absurd (lt_of_le_of_lt (level_ge_one d.priority) h2) (lt_irrefl 1)

/-- A triggered direct answer on a RED discriminator promotes a
non-RED running pair to RED with the discriminator description. -/
theorem genStepAns_triggered_red (answers : List (String × Bool)) (d : Discriminator)
    (acc : TriagePriority × String) (hat : answer_triggered answers d = true)
    (hd : d.priority = .RED) (hacc : acc.1 ≠ .RED) :
    genStepAns answers d acc = (.RED, d.description) := by
  unfold genStepAns
  rw [if_pos ⟨hat, by rw [hd]; exact one_lt_level_of_ne_red hacc⟩, hd]

/-- An untriggered direct answer leaves the running pair unchanged. -/
theorem genStepAns_untrig (answers : List (String × Bool)) (d : Discriminator)
    (acc : TriagePriority × String) (hat : answer_triggered answers d = false) :
    genStepAns answers d acc = acc := by
  unfold genStepAns
  rw [if_neg]
  rintro ⟨h, -⟩
  rw [answer_triggered] at hat
  rw [hat] at h
  exact Bool.noConfusion h

/-- The answer half either installs this discriminator or keeps the
running pair. -/
theorem genStepAns_cases (answers : List (String × Bool)) (d : Discriminator)
    (acc : TriagePriority × String) :
    genStepAns answers d acc = (d.priority, d.description) ∨
      genStepAns answers d acc = acc := by
  unfold genStepAns
  split
  · exact Or.inl rfl
  · exact Or.inr rfl

/-- The vitals half never dethrones a RED running pair (numeric vitals
keep it exception-free). -/
theorem genStepVitals_red_stable (vital_signs : Option (List (String × PyVal)))
    (hnum : numericVitals vital_signs) (d : Discriminator) (r : String) :
    genStepVitals vital_signs d (.RED, r) = .ok (.RED, r) := by
  unfold genStepVitals
  cases vital_signs with
  | none => rfl
  | some vs =>
    cases d.vital_signs_criteria with
    | none => rfl
    | some crit =>
      simp only
      split
      · rfl
      · obtain ⟨b, hb⟩ := check_vital_signs_criteria_num_ok vs hnum crit
        rw [hb]
        cases b with
        | false => rfl
        | true =>
          have hlt2 : ¬ (true = true ∧
              d.priority.level < (TriagePriority.RED, r).1.level) := by
            rintro ⟨-, h⟩
            have h2 : d.priority.level < 1 := h
            exact absurd (lt_of_le_of_lt (level_ge_one d.priority) h2) (lt_irrefl 1)
          show Except.ok
              (if true = true ∧ d.priority.level < (TriagePriority.RED, r).1.level
               then (d.priority, d.description ++ " (sinais vitais)")
               else (TriagePriority.RED, r)) =
            Except.ok ((TriagePriority.RED : TriagePriority), r)
          rw [if_neg hlt2]

/-- A triggered vital-signs check on a RED discriminator promotes a
non-RED running pair to RED, tagging the reason. -/
theorem genStepVitals_triggered_red (vital_signs : Option (List (String × PyVal)))
    (d : Discriminator) (acc : TriagePriority × String)
    (hvt : vitals_triggered vital_signs d = true)
    (hd : d.priority = .RED) (hacc : acc.1 ≠ .RED) :
    genStepVitals vital_signs d acc = .ok (.RED, d.description ++ " (sinais vitais)") := by
  unfold vitals_triggered at hvt
  unfold genStepVitals
  cases vital_signs with
  | none => exact Bool.noConfusion hvt
  | some vs =>
    cases hcrit : d.vital_signs_criteria with
    | none => rw [hcrit] at hvt; exact Bool.noConfusion hvt
    | some crit =>
      rw [hcrit] at hvt
      simp only [Bool.and_eq_true, Bool.not_eq_true'] at hvt
      obtain ⟨⟨hvs, hcr⟩, hok⟩ := hvt
      have hchk := exceptIsOkTrue_eq hok
      simp only
      rw [if_neg (by simp [hvs, hcr]), hchk]
      show Except.ok
          (if true = true ∧ d.priority.level < acc.1.level
           then (d.priority, d.description ++ " (sinais vitais)") else acc) = _
      rw [if_pos ⟨rfl, by rw [hd]; exact one_lt_level_of_ne_red hacc⟩, hd]

/-- An untriggered vital-signs check leaves the running pair
unchanged (numeric vitals keep it exception-free). -/
theorem genStepVitals_untrig (vital_signs : Option (List (String × PyVal)))
    (hnum : numericVitals vital_signs) (d : Discriminator)
    (acc : TriagePriority × String)
    (hvt : vitals_triggered vital_signs d = false) :
    genStepVitals vital_signs d acc = .ok acc := by
  unfold vitals_triggered at hvt
  unfold genStepVitals
  cases vital_signs with
  | none => rfl
  | some vs =>
    cases hcrit : d.vital_signs_criteria with
    | none => rfl
    | some crit =>
      rw [hcrit] at hvt
      simp only at hvt
      simp only
      split
      · rfl
      · rename_i hemp
        obtain ⟨b, hb⟩ := check_vital_signs_criteria_num_ok vs hnum crit
        rw [hb]
        cases b with
        | false => rfl
        | true =>
          exfalso
          rw [hb] at hvt
          have hvs : vs.isEmpty = false := by
            cases h2 : vs.isEmpty with
            | false => rfl
            | true => exact absurd (Or.inl h2) hemp
          have hcr : crit.isEmpty = false := by
            cases h2 : crit.isEmpty with
            | false => rfl
            | true => exact absurd (Or.inr h2) hemp
          rw [hvs, hcr] at hvt
          simp [exceptIsOkTrue] at hvt

/-- With numeric vitals the vitals half never raises, and it either
installs this discriminator or keeps the running pair. -/
theorem genStepVitals_cases (vital_signs : Option (List (String × PyVal)))
    (hnum : numericVitals vital_signs) (d : Discriminator)
    (acc : TriagePriority × String) :
    ∃ acc2, genStepVitals vital_signs d acc = .ok acc2 ∧
      (acc2.1 = d.priority ∨ acc2 = acc) := by
  unfold genStepVitals
  cases vital_signs with
  | none => exact ⟨acc, rfl, Or.inr rfl⟩
  | some vs =>
    cases d.vital_signs_criteria with
    | none => exact ⟨acc, rfl, Or.inr rfl⟩
    | some crit =>
      simp only
      split
      · exact ⟨acc, rfl, Or.inr rfl⟩
      · obtain ⟨b, hb⟩ := check_vital_signs_criteria_num_ok vs hnum crit
        rw [hb]
        cases b with
        | false => exact ⟨acc, rfl, Or.inr rfl⟩
        | true =>
          show ∃ acc2, Except.ok
              (if true = true ∧ d.priority.level < acc.1.level
               then (d.priority, d.description ++ " (sinais vitais)") else acc) =
              .ok acc2 ∧ _
          split
          · exact ⟨_, rfl, Or.inl rfl⟩
          · exact ⟨acc, rfl, Or.inr rfl⟩

/-- A RED running pair survives the whole loop untouched. -/
theorem checkGenLoop_red_stable (answers : List (String × Bool))
    (vital_signs : Option (List (String × PyVal)))
    (hnum : numericVitals vital_signs) (ds : List Discriminator) (r : String) :
    checkGenLoop answers vital_signs ds (.RED, r) = .ok (.RED, r) := by
  induction ds with
  | nil => rfl
  | cons d rest ih =>
    rw [checkGenLoop, genStep, genStepAns_red_stable,
      genStepVitals_red_stable vital_signs hnum d r]
    exact ih

/-- A loop over discriminators none of which fires leaves the running
pair untouched. -/
theorem checkGenLoop_untrig (answers : List (String × Bool))
    (vital_signs : Option (List (String × PyVal)))
    (hnum : numericVitals vital_signs) (ds : List Discriminator)
    (acc : TriagePriority × String)
    (h : ∀ d ∈ ds, discriminator_triggered answers vital_signs d = false) :
    checkGenLoop answers vital_signs ds acc = .ok acc := by
  induction ds with
  | nil => rfl
  | cons d rest ih =>
    have hd := h d (List.mem_cons_self _ _)
    rw [discriminator_triggered, Bool.or_eq_false_iff] at hd
    obtain ⟨hat, hvt⟩ := hd
    rw [checkGenLoop, genStep, genStepAns_untrig answers d acc hat,
      genStepVitals_untrig vital_signs hnum d acc hvt]
    exact ih fun d2 hd2 => h d2 (List.mem_cons_of_mem _ hd2)

/-- Once some RED discriminator of the remaining list fires, the loop
ends RED, with the reason drawn from a fired RED discriminator. -/
theorem checkGenLoop_red_of_triggered (answers : List (String × Bool))
    (vital_signs : Option (List (String × PyVal)))
    (hnum : numericVitals vital_signs) :
    ∀ (ds : List Discriminator) (acc : TriagePriority × String),
      acc.1 ≠ .RED →
      (∃ d ∈ ds, d.priority = .RED ∧
        discriminator_triggered answers vital_signs d = true) →
      ∃ d ∈ ds, d.priority = .RED ∧
        discriminator_triggered answers vital_signs d = true ∧
        ∃ r, (r = d.description ∨ r = d.description ++ " (sinais vitais)") ∧
          checkGenLoop answers vital_signs ds acc = .ok (.RED, r) := by
  intro ds
  induction ds with
  | nil => rintro acc - ⟨d, hd, -⟩; exact absurd hd (List.not_mem_nil d)
  | cons d rest ih =>
    rintro acc hacc hex
    by_cases hdred : d.priority = .RED ∧
        discriminator_triggered answers vital_signs d = true
    · obtain ⟨hdR, hdT⟩ := hdred
      cases hat : answer_triggered answers d with
      | true =>
        refine ⟨d, List.mem_cons_self _ _, hdR, hdT, d.description, Or.inl rfl, ?_⟩
        rw [checkGenLoop, genStep, genStepAns_triggered_red answers d acc hat hdR hacc,
          genStepVitals_red_stable vital_signs hnum d d.description]
        exact checkGenLoop_red_stable answers vital_signs hnum rest d.description
      | false =>
        have hvt : vitals_triggered vital_signs d = true := by
          rw [discriminator_triggered, hat, Bool.false_or] at hdT
          exact hdT
        refine ⟨d, List.mem_cons_self _ _, hdR, hdT,
          d.description ++ " (sinais vitais)", Or.inr rfl, ?_⟩
        rw [checkGenLoop, genStep, genStepAns_untrig answers d acc hat,
          genStepVitals_triggered_red vital_signs d acc hvt hdR hacc]
        exact checkGenLoop_red_stable answers vital_signs hnum rest _
    · have hex2 : ∃ d2 ∈ rest, d2.priority = .RED ∧
          discriminator_triggered answers vital_signs d2 = true := by
        obtain ⟨d2, hd2mem, hd2⟩ := hex
        rcases List.mem_cons.mp hd2mem with rfl | hmem
        · exact absurd hd2 hdred
        · exact ⟨d2, hmem, hd2⟩
      have hacc1 : (genStepAns answers d acc).1 ≠ .RED := by
        intro hR
        by_cases hcond : (answers.lookup d.id).getD false = true ∧
            d.priority.level < acc.1.level
        · rw [genStepAns, if_pos hcond] at hR
          have hdR : d.priority = .RED := hR
          exact hdred ⟨hdR, by
            rw [discriminator_triggered, answer_triggered, hcond.1]; rfl⟩
        · rw [genStepAns, if_neg hcond] at hR
          exact hacc hR
      obtain ⟨acc2, hacc2eq, hacc2⟩ :=
        genStepVitals_cases vital_signs hnum d (genStepAns answers d acc)
      have hacc2ne : acc2.1 ≠ .RED := by
        intro hR
        rcases hacc2 with h2 | h2
        · have hdR : d.priority = .RED := by rw [← h2]; exact hR
          have htrig : discriminator_triggered answers vital_signs d = false := by
            cases ht : discriminator_triggered answers vital_signs d with
            | false => rfl
            | true => exact absurd ⟨hdR, ht⟩ hdred
          rw [discriminator_triggered, Bool.or_eq_false_iff] at htrig
          obtain ⟨hat, hvt⟩ := htrig
          rw [genStepVitals_untrig vital_signs hnum d _ hvt] at hacc2eq
          injection hacc2eq with h3
          rw [h3] at hacc1
          exact hacc1 hR
        · rw [h2] at hR
          exact hacc1 hR
      obtain ⟨d2, hd2mem, hd2R, hd2T, r, hr, hloop⟩ := ih acc2 hacc2ne hex2
      refine ⟨d2, List.mem_cons_of_mem _ hd2mem, hd2R, hd2T, r, hr, ?_⟩
      rw [checkGenLoop, genStep, hacc2eq]
      exact hloop

/-! ### Bridging lemmas for calculate_priority -/

/-- A successful general pass routes calculate_priority into the
method tail. -/
theorem calculate_priority_eq (complaint : String)
    (answers : List (String × Bool)) (vital_signs : Option (List (String × PyVal)))
    (a : Option Nat) (p : Bool) (g : Option Nat)
    {pr : TriagePriority} {r : String}
    (h : check_general_discriminators answers vital_signs = .ok (pr, r)) :
    calculate_priority complaint answers vital_signs a p g =
      calc_after_general complaint pr r := by
  unfold calculate_priority
  rw [h]
  rfl

/-- A raised exception in the general pass propagates out of
calculate_priority. -/
theorem calculate_priority_err (complaint : String)
    (answers : List (String × Bool)) (vital_signs : Option (List (String × PyVal)))
    (a : Option Nat) (p : Bool) (g : Option Nat) {e : String}
    (h : check_general_discriminators answers vital_signs = .error e) :
    calculate_priority complaint answers vital_signs a p g = .error e := by
  unfold calculate_priority
  rw [h]
  rfl

/-- The method tail on a RED pair returns it with the emergency
recommendations. -/
theorem calc_after_general_red (complaint : String) (r : String) :
    calc_after_general complaint .RED r =
      .ok (.RED, r, get_emergency_recommendations r) := rfl

/-- The method tail on a non-RED pair raises an AttributeError. -/
theorem calc_after_general_nonred (complaint : String) (pr : TriagePriority)
    (r : String) (hne : pr ≠ .RED) :
    ∃ msg, calc_after_general complaint pr r = .error msg ∧
      "AttributeError".toList.isPrefixOf msg.toList = true := by
  rw [calc_after_general, if_neg hne]
  cases flowcharts.lookup complaint with
  | none => exact ⟨_, rfl, by decide⟩
  | some fc => exact ⟨_, rfl, by decide⟩

/-! ### Claims C1 to C6 -/

/-- Claim C1 (amended): when some RED general discriminator is
triggered, by a True answer or by its vital-signs criteria, and every
supplied vital-sign value is numeric so that no criteria evaluation
raises, calculate_priority returns the RED tier with that
discriminator description as reason (possibly tagged with the
vital-signs marker), for every presentation id alike, so no
presentation-specific discriminator influences the result. -/
theorem claim_C1_red_short_circuit
    (answers : List (String × Bool)) (vital_signs : Option (List (String × PyVal)))
    (hnum : numericVitals vital_signs)
    (hex : ∃ d ∈ general_discriminators, d.priority = .RED ∧
      discriminator_triggered answers vital_signs d = true) :
    ∃ d ∈ general_discriminators, d.priority = .RED ∧
      discriminator_triggered answers vital_signs d = true ∧
      ∃ r, (r = d.description ∨ r = d.description ++ " (sinais vitais)") ∧
        ∀ (complaint : String) (a : Option Nat) (p : Bool) (g : Option Nat),
          calculate_priority complaint answers vital_signs a p g =
            .ok (.RED, r, get_emergency_recommendations r) := by
  obtain ⟨d, hmem, hdR, hdT, r, hr, hloop⟩ :=
    checkGenLoop_red_of_triggered answers vital_signs hnum general_discriminators
      (.BLUE, "Sem sinais de alarme identificados") (by decide) hex
  have hcg : check_general_discriminators answers vital_signs = .ok (.RED, r) := hloop
  refine ⟨d, hmem, hdR, hdT, r, hr, fun complaint a p g => ?_⟩
  rw [calculate_priority_eq complaint answers vital_signs a p g hcg,
    calc_after_general_red]

/-- Claim C1 witness: the unresponsive discriminator answered True. -/
theorem claim_C1_red_short_circuit_witness :
    numericVitals (none : Option (List (String × PyVal))) ∧
    ∃ d ∈ general_discriminators, d.priority = .RED ∧
      discriminator_triggered [("unresponsive", true)] none d = true ∧
      ∃ r, (r = d.description ∨ r = d.description ++ " (sinais vitais)") ∧
        ∀ (complaint : String) (a : Option Nat) (p : Bool) (g : Option Nat),
          calculate_priority complaint [("unresponsive", true)] none a p g =
            .ok (.RED, r, get_emergency_recommendations r) :=
  ⟨trivial, claim_C1_red_short_circuit [("unresponsive", true)] none trivial (by decide)⟩

/-- Claim C1 counterexample: with the airway discriminator answered
True (a triggered RED general discriminator) but a string supplied as
respiratory rate, the later shock-breathing criteria comparison raises
TypeError, so calculate_priority does not return the RED tier. -/
theorem claim_C1_counterexample :
    (general_discriminators.get ⟨0, by decide⟩).priority = TriagePriority.RED ∧
    discriminator_triggered [("airway_compromised", true)]
      (some [("respiratory_rate", PyVal.str "x")])
      (general_discriminators.get ⟨0, by decide⟩) = true ∧
    calculate_priority "chest_pain" [("airway_compromised", true)]
      (some [("respiratory_rate", PyVal.str "x")]) none false none =
      .error "TypeError: < not supported between instances of str and float" :=
  ⟨rfl, rfl, rfl⟩

/-- Claim C2: whenever the general pass completes with a non-RED tier,
calculate_priority raises an AttributeError instead of returning; and
any normal return of calculate_priority carries the RED tier. -/
theorem claim_C2_nonred_raises :
    (∀ (answers : List (String × Bool)) (vital_signs : Option (List (String × PyVal)))
       (pr : TriagePriority) (r : String) (complaint : String)
       (a : Option Nat) (p : Bool) (g : Option Nat),
       check_general_discriminators answers vital_signs = .ok (pr, r) → pr ≠ .RED →
       ∃ msg, calculate_priority complaint answers vital_signs a p g = .error msg ∧
         "AttributeError".toList.isPrefixOf msg.toList = true) ∧
    (∀ (complaint : String) (answers : List (String × Bool))
       (vital_signs : Option (List (String × PyVal)))
       (a : Option Nat) (p : Bool) (g : Option Nat)
       (res : TriagePriority × String × List String),
       calculate_priority complaint answers vital_signs a p g = .ok res →
       res.1 = .RED) := by
  constructor
  · intro answers vital_signs pr r complaint a p g h hne
    obtain ⟨msg, hmsg, hpre⟩ := calc_after_general_nonred complaint pr r hne
    exact ⟨msg, by rw [calculate_priority_eq complaint answers vital_signs a p g h, hmsg], hpre⟩
  · intro complaint answers vital_signs a p g res hres
    cases hcg : check_general_discriminators answers vital_signs with
    | error e =>
      rw [calculate_priority_err complaint answers vital_signs a p g hcg] at hres
      exact Except.noConfusion hres
    | ok pr_r =>
      obtain ⟨pr, r⟩ := pr_r
      rw [calculate_priority_eq complaint answers vital_signs a p g hcg] at hres
      by_cases hpr : pr = .RED
      · subst hpr
        rw [calc_after_general_red] at hres
        injection hres with h2
        rw [← h2]
      · obtain ⟨msg, hmsg, -⟩ := calc_after_general_nonred complaint pr r hpr
        rw [hmsg] at hres
        exact Except.noConfusion hres

/-- Claim C2 witness: a quiet intake raises, and the RED intake that
does return carries the RED tier. -/
theorem claim_C2_nonred_raises_witness :
    (∃ msg, calculate_priority "chest_pain" [] none none false none = .error msg ∧
      "AttributeError".toList.isPrefixOf msg.toList = true) ∧
    ((TriagePriority.RED, "Não responsivo",
      get_emergency_recommendations "Não responsivo") :
        TriagePriority × String × List String).1 = .RED :=
  ⟨claim_C2_nonred_raises.1 [] none .BLUE "Sem sinais de alarme identificados"
      "chest_pain" none false none rfl (by decide),
   claim_C2_nonred_raises.2 "chest_pain" [("unresponsive", true)] none none false none
      (.RED, "Não responsivo", get_emergency_recommendations "Não responsivo") rfl⟩

/-- Claim C3: an unknown presentation id does not fall back to a
generic flowchart; the call raises AttributeError because the
generic-flowchart builder is never defined. -/
theorem claim_C3_unknown_presentation_crash :
    flowcharts.lookup "presentacao_desconhecida" = none ∧
    calculate_priority "presentacao_desconhecida" [] none none false none =
      .error "AttributeError: ManchesterTriageSystem object has no attribute _get_generic_flowchart" :=
  ⟨rfl, rfl⟩

/-- Claim C4 counterexample: with nothing triggered the general pass
yields BLUE, not GREEN, and calculate_priority raises instead of
returning a tier. -/
theorem claim_C4_counterexample :
    check_general_discriminators [] none =
      .ok (.BLUE, "Sem sinais de alarme identificados") ∧
    TriagePriority.BLUE ≠ TriagePriority.GREEN ∧
    calculate_priority "chest_pain" [] none none false none =
      .error "AttributeError: ManchesterTriageSystem object has no attribute _check_flowchart_discriminators" :=
  ⟨rfl, by decide, rfl⟩

/-- Claim C4 (amended): when no general discriminator fires and the
vitals are numeric, the general pass yields the BLUE default with the
no-alarm-signs reason, and calculate_priority then raises instead of
returning. -/
theorem claim_C4_no_trigger_blue
    (answers : List (String × Bool)) (vital_signs : Option (List (String × PyVal)))
    (hnum : numericVitals vital_signs)
    (huntrig : ∀ d ∈ general_discriminators,
      discriminator_triggered answers vital_signs d = false) :
    check_general_discriminators answers vital_signs =
      .ok (.BLUE, "Sem sinais de alarme identificados") ∧
    ∀ (complaint : String) (a : Option Nat) (p : Bool) (g : Option Nat),
      ∃ msg, calculate_priority complaint answers vital_signs a p g = .error msg := by
  have hcg : check_general_discriminators answers vital_signs =
      .ok (.BLUE, "Sem sinais de alarme identificados") :=
    checkGenLoop_untrig answers vital_signs hnum general_discriminators _ huntrig
  refine ⟨hcg, fun complaint a p g => ?_⟩
  obtain ⟨msg, hmsg, -⟩ := calc_after_general_nonred complaint .BLUE
    "Sem sinais de alarme identificados" (by decide)
  exact ⟨msg, by
    rw [calculate_priority_eq complaint answers vital_signs a p g hcg, hmsg]⟩

/-- Claim C4 witness: the empty intake. -/
theorem claim_C4_no_trigger_blue_witness :
    check_general_discriminators [] none =
      .ok (.BLUE, "Sem sinais de alarme identificados") ∧
    ∃ msg, calculate_priority "headache" [] none none false none = .error msg :=
  ⟨(claim_C4_no_trigger_blue [] none trivial (by decide)).1,
   (claim_C4_no_trigger_blue [] none trivial (by decide)).2 "headache" none false none⟩

/-- Claim C5: the worked examples of the condition evaluator, and the
or- and and-combination semantics over a present numeric measurement:
an or-chain is true exactly when some atomic comparison is, an
and-chain exactly when all are. -/
theorem claim_C5_or_and_semantics :
    check_vital_signs_criteria [("hr", .num 95)] [("hr", .s "<90 or >140")] = .ok false ∧
    check_vital_signs_criteria [("hr", .num 150)] [("hr", .s "<90 or >140")] = .ok true ∧
    check_vital_signs_criteria [("hr", .num 100)] [("hr", .s ">90 and <140")] = .ok true ∧
    (∀ (q : Rat) (cs : List String),
      evalAnyCond (.num q) cs = .ok true ↔
        ∃ c ∈ cs, evaluate_condition (.num q) (pyStrip c) = .ok true) ∧
    (∀ (q : Rat) (cs : List String),
      evalAllCond (.num q) cs = .ok true ↔
        ∀ c ∈ cs, evaluate_condition (.num q) (pyStrip c) = .ok true) := by
  refine ⟨?_, ?_, ?_, evalAnyCond_iff, evalAllCond_iff⟩
  · with_unfolding_all rfl
  · with_unfolding_all rfl
  · with_unfolding_all rfl

/-- Claim C6 counterexample: a string supplied as a vital sign is not
treated as a not-met condition; the comparison raises TypeError and
the whole resolution aborts. -/
theorem claim_C6_counterexample :
    check_vital_signs_criteria [("spo2", .str "muito baixo")] [("spo2", .s "<90")] =
      .error "TypeError: < not supported between instances of str and float" ∧
    calculate_priority "chest_pain" [] (some [("spo2", .str "muito baixo")])
      none false none =
      .error "TypeError: < not supported between instances of str and float" :=
  ⟨rfl, rfl⟩

/-- Claim C6 (amended): criteria evaluation is exception-free when
every supplied measurement value is numeric, but a non-numeric value
that reaches a parsed comparison raises TypeError and aborts the
priority resolution. -/
theorem claim_C6_nonnumeric_typeerror :
    (∀ (vs : List (String × PyVal)) (crit : List (String × CondVal)),
      (∀ pv ∈ vs, (Prod.snd pv).isNum = true) →
      ∃ b, check_vital_signs_criteria vs crit = .ok b) ∧
    calculate_priority "chest_pain" [] (some [("spo2", .str "muito baixo")])
      none false none =
      .error "TypeError: < not supported between instances of str and float" :=
  ⟨fun vs crit h => check_vital_signs_criteria_num_ok vs h crit, rfl⟩

/-- Claim C6 witness: a numeric heart rate evaluates without raising. -/
theorem claim_C6_nonnumeric_typeerror_witness :
    (∀ pv ∈ ([("hr", PyVal.num 100)] : List (String × PyVal)),
      (Prod.snd pv).isNum = true) ∧
    ∃ b, check_vital_signs_criteria [("hr", PyVal.num 100)]
      [("hr", CondVal.s "<90")] = .ok b :=
  ⟨by decide, claim_C6_nonnumeric_typeerror.1 _ _ (by decide)⟩

/-! ### Queue ordering lemmas -/

/-- Counting a weaker predicate over the same list never counts more. -/
theorem countP_le_of_imp {α : Type} (l : List α) (p q : α → Bool)
    (h : ∀ x ∈ l, p x = true → q x = true) : l.countP p ≤ l.countP q := by
  induction l with
  | nil => exact le_refl 0
  | cons a rest ih =>
    rw [List.countP_cons, List.countP_cons]
    have hrest := ih fun x hx => h x (List.mem_cons_of_mem _ hx)
    have hstep : (if p a = true then 1 else 0) ≤ (if q a = true then 1 else 0) := by
      by_cases hp : p a = true
      · rw [if_pos hp, if_pos (h a (List.mem_cons_self _ _) hp)]
      · rw [if_neg hp]
        exact Nat.zero_le _
    omega

/-- A strictly separating element makes the count strictly larger. -/
theorem countP_lt_of_imp_of_mem {α : Type} (l : List α) (p q : α → Bool)
    (a : α) (ha : a ∈ l) (h : ∀ x ∈ l, p x = true → q x = true)
    (hpa : p a = false) (hqa : q a = true) : l.countP p < l.countP q := by
  induction l with
  | nil => exact absurd ha (List.not_mem_nil a)
  | cons b rest ih =>
    rw [List.countP_cons, List.countP_cons]
    have e1 : (if (false : Bool) = true then 1 else 0) = 0 := rfl
    have e2 : (if (true : Bool) = true then 1 else 0) = 1 := rfl
    rcases List.mem_cons.mp ha with rfl | hmem
    · rw [hpa, hqa, e1, e2]
      have hrest := countP_le_of_imp rest p q fun x hx => h x (List.mem_cons_of_mem _ hx)
      omega
    · have hrest := ih hmem fun x hx => h x (List.mem_cons_of_mem _ hx)
      have hstep : (if p b = true then 1 else 0) ≤ (if q b = true then 1 else 0) := by
        by_cases hp : p b = true
        · rw [if_pos hp, if_pos (h b (List.mem_cons_self _ _) hp)]
        · rw [if_neg hp]
          exact Nat.zero_le _
      omega

/-- Pointwise-equal predicates count equally. -/
theorem countP_ext {α : Type} (l : List α) (p q : α → Bool)
    (h : ∀ x, p x = q x) : l.countP p = l.countP q := by
  induction l with
  | nil => rfl
  | cons a rest ih =>
    rw [List.countP_cons, List.countP_cons, h a, ih]

/-- The ORM filter predicate read as a proposition. -/
theorem queueAhead_eq_true_iff (s x : TriageSession) :
    queueAhead s x = true ↔
      x.facility = s.facility ∧ x.status = "WAITING" ∧
        (x.priority_level < s.priority_level ∨
          (x.priority_level = s.priority_level ∧ x.arrival_time < s.arrival_time)) := by
  unfold queueAhead
  simp only [Bool.and_eq_true, Bool.or_eq_true, beq_iff_eq, decide_eq_true_eq]
  tauto

/-- An encounter strictly below another in the (tier, arrival)
lexicographic order gets a strictly lower position number, provided it
is itself a WAITING row of the snapshot at the same facility. -/
theorem queue_position_lt_of_lex (db : List TriageSession) (a b : TriageSession)
    (ha : a ∈ db) (haw : a.status = "WAITING") (hfac : a.facility = b.facility)
    (hlex : a.priority_level < b.priority_level ∨
      (a.priority_level = b.priority_level ∧ a.arrival_time < b.arrival_time)) :
    calculate_queue_position db a < calculate_queue_position db b := by
  unfold calculate_queue_position
  rw [← List.countP_eq_length_filter, ← List.countP_eq_length_filter]
  have hcount : db.countP (queueAhead a) < db.countP (queueAhead b) := by
    apply countP_lt_of_imp_of_mem db (queueAhead a) (queueAhead b) a ha
    · intro x hx hpx
      rw [queueAhead_eq_true_iff] at hpx ⊢
      obtain ⟨hxf, hxw, hxlex⟩ := hpx
      refine ⟨hxf.trans hfac, hxw, ?_⟩
      rcases hxlex with h1 | ⟨h1, h2⟩ <;> rcases hlex with h3 | ⟨h3, h4⟩ <;> omega
    · rw [Bool.eq_false_iff]
      intro hcon
      rw [queueAhead_eq_true_iff] at hcon
      obtain ⟨-, -, hlexaa⟩ := hcon
      rcases hlexaa with h1 | ⟨-, h2⟩ <;> omega
    · rw [queueAhead_eq_true_iff]
      exact ⟨hfac, haw, hlex⟩
  omega

/-- Claim C7: the computed position is one plus the number of other
WAITING encounters at the facility that outrank this one (lower tier
rank, or equal rank and earlier arrival), and an encounter with a
strictly more severe tier always receives a strictly lower position
than a less severe WAITING encounter of the same facility snapshot,
regardless of arrival times. -/
theorem claim_C7_queue_position :
    (∀ (db : List TriageSession) (s : TriageSession),
      calculate_queue_position db s =
        db.countP (fun x => decide (specAheadOf s x)) + 1) ∧
    (∀ (db : List TriageSession) (a b : TriageSession),
      a ∈ db → a.status = "WAITING" → b.status = "WAITING" →
      a.facility = b.facility → a.priority_level < b.priority_level →
      calculate_queue_position db a < calculate_queue_position db b) := by
  constructor
  · intro db s
    unfold calculate_queue_position
    rw [← List.countP_eq_length_filter]
    congr 1
    apply countP_ext
    intro x
    rw [Bool.eq_iff_iff, queueAhead_eq_true_iff, decide_eq_true_eq]
    unfold specAheadOf
    constructor
    · rintro ⟨hf, hw, hlex⟩
      refine ⟨?_, hw, hf, hlex⟩
      rintro rfl
      rcases hlex with h1 | ⟨-, h2⟩ <;> omega
    · rintro ⟨-, hw, hf, hlex⟩
      exact ⟨hf, hw, hlex⟩
  · intro db a b ha haw hbw hfac hlev
    exact queue_position_lt_of_lex db a b ha haw hfac (Or.inl hlev)

/-- Claim C7 witness: a RED arrival later than a YELLOW one still
sorts first. -/
theorem claim_C7_queue_position_witness :
    calculate_queue_position
        [⟨1, 1, "WAITING", 1, 100⟩, ⟨2, 1, "WAITING", 3, 50⟩]
        ⟨1, 1, "WAITING", 1, 100⟩ =
      List.countP (fun x => decide (specAheadOf ⟨1, 1, "WAITING", 1, 100⟩ x))
        [⟨1, 1, "WAITING", 1, 100⟩, ⟨2, 1, "WAITING", 3, 50⟩] + 1 ∧
    calculate_queue_position
        [⟨1, 1, "WAITING", 1, 100⟩, ⟨2, 1, "WAITING", 3, 50⟩]
        ⟨1, 1, "WAITING", 1, 100⟩ <
      calculate_queue_position
        [⟨1, 1, "WAITING", 1, 100⟩, ⟨2, 1, "WAITING", 3, 50⟩]
        ⟨2, 1, "WAITING", 3, 50⟩ :=
  ⟨claim_C7_queue_position.1 _ _,
   claim_C7_queue_position.2 _ _ _ (by decide) rfl rfl rfl (by decide)⟩

/-- Claim C8 counterexample: two distinct WAITING encounters with the
same tier and the same arrival time both report position one; no
secondary key separates them. -/
theorem claim_C8_counterexample :
    (⟨1, 1, "WAITING", 3, 100⟩ : TriageSession) ≠ ⟨2, 1, "WAITING", 3, 100⟩ ∧
    calculate_queue_position
      [⟨1, 1, "WAITING", 3, 100⟩, ⟨2, 1, "WAITING", 3, 100⟩]
      ⟨1, 1, "WAITING", 3, 100⟩ = 1 ∧
    calculate_queue_position
      [⟨1, 1, "WAITING", 3, 100⟩, ⟨2, 1, "WAITING", 3, 100⟩]
      ⟨2, 1, "WAITING", 3, 100⟩ = 1 :=
  ⟨by decide, rfl, rfl⟩

/-- Claim C8 (amended): positions of WAITING encounters of one
facility are pairwise distinct whenever their (tier rank, arrival
time) keys differ, but encounters sharing both tier rank and arrival
time receive the same position: the code has no tie-breaking secondary
key. -/
theorem claim_C8_positions_distinct :
    (∀ (db : List TriageSession) (a b : TriageSession),
      a ∈ db → b ∈ db → a.status = "WAITING" → b.status = "WAITING" →
      a.facility = b.facility →
      (a.priority_level ≠ b.priority_level ∨ a.arrival_time ≠ b.arrival_time) →
      calculate_queue_position db a ≠ calculate_queue_position db b) ∧
    (∀ (db : List TriageSession) (a b : TriageSession),
      a.facility = b.facility → a.priority_level = b.priority_level →
      a.arrival_time = b.arrival_time →
      calculate_queue_position db a = calculate_queue_position db b) := by
  constructor
  · intro db a b ha hb haw hbw hfac hkey
    rcases Nat.lt_trichotomy a.priority_level b.priority_level with h1 | h1 | h1
    · exact Nat.ne_of_lt (queue_position_lt_of_lex db a b ha haw hfac (Or.inl h1))
    · rcases Nat.lt_trichotomy a.arrival_time b.arrival_time with h2 | h2 | h2
      · exact Nat.ne_of_lt
          (queue_position_lt_of_lex db a b ha haw hfac (Or.inr ⟨h1, h2⟩))
      · rcases hkey with h3 | h3 <;> exact absurd (by omega) h3
      · exact (Nat.ne_of_lt
          (queue_position_lt_of_lex db b a hb hbw hfac.symm (Or.inr ⟨h1.symm, h2⟩))).symm
    · exact (Nat.ne_of_lt
        (queue_position_lt_of_lex db b a hb hbw hfac.symm (Or.inl h1))).symm
  · intro db a b hfac hlev harr
    unfold calculate_queue_position
    rw [← List.countP_eq_length_filter, ← List.countP_eq_length_filter]
    congr 1
    apply countP_ext
    intro x
    unfold queueAhead
    rw [hfac, hlev, harr]

/-- Claim C8 witness: distinct keys give distinct positions; equal
keys give equal positions. -/
theorem claim_C8_positions_distinct_witness :
    calculate_queue_position
        [⟨1, 1, "WAITING", 1, 100⟩, ⟨2, 1, "WAITING", 3, 50⟩]
        ⟨1, 1, "WAITING", 1, 100⟩ ≠
      calculate_queue_position
        [⟨1, 1, "WAITING", 1, 100⟩, ⟨2, 1, "WAITING", 3, 50⟩]
        ⟨2, 1, "WAITING", 3, 50⟩ ∧
    calculate_queue_position [⟨1, 1, "WAITING", 3, 100⟩]
        (⟨5, 1, "WAITING", 2, 40⟩ : TriageSession) =
      calculate_queue_position [⟨1, 1, "WAITING", 3, 100⟩]
        ⟨6, 1, "WAITING", 2, 40⟩ :=
  ⟨claim_C8_positions_distinct.1 _ _ _ (by decide) (by decide) rfl rfl rfl
      (Or.inl (by decide)),
   claim_C8_positions_distinct.2 _ _ _ rfl rfl rfl⟩

/-- Claim C9 counterexample: one RED patient ahead and occupancy above
ninety percent give an estimate of 7 minutes, the truncation of the
claimed exact product 7.5. -/
theorem claim_C9_counterexample :
    calculate_queue_position
      [⟨1, 1, "WAITING", 1, 50⟩, ⟨2, 1, "WAITING", 1, 100⟩]
      ⟨2, 1, "WAITING", 1, 100⟩ = 2 ∧
    update_wait_time_estimate
      [⟨1, 1, "WAITING", 1, 50⟩, ⟨2, 1, "WAITING", 1, 100⟩]
      ⟨2, 1, "WAITING", 1, 100⟩ 91 = 7 ∧
    ((2 - 1) * 5 : Rat) * (3 / 2) = 15 / 2 ∧
    ((7 : Rat) ≠ 15 / 2) :=
  ⟨rfl, rfl, by norm_num, by norm_num⟩

/-- Claim C9 (amended): the estimate is patients-ahead times the
per-tier base constant (RED 5, ORANGE 15, YELLOW 30, GREEN 45,
BLUE 60), and when occupancy exceeds ninety percent the product is
multiplied by 1.5 and truncated to its integer floor. -/
theorem claim_C9_wait_estimate :
    (base_time 1 = 5 ∧ base_time 2 = 15 ∧ base_time 3 = 30 ∧
      base_time 4 = 45 ∧ base_time 5 = 60) ∧
    ∀ (db : List TriageSession) (s : TriageSession) (occ : Int),
      update_wait_time_estimate db s occ =
        if occ > 90 then
          Nat.floor
            ((((calculate_queue_position db s - 1) * base_time s.priority_level :
              Nat) : Rat) * (3 / 2))
        else (calculate_queue_position db s - 1) * base_time s.priority_level := by
  refine ⟨⟨rfl, rfl, rfl, rfl, rfl⟩, ?_⟩
  intro db s occ
  unfold update_wait_time_estimate
  by_cases hocc : occ > 90
  · rw [if_pos hocc, if_pos hocc]
    set n := (calculate_queue_position db s - 1) * base_time s.priority_level with hn
    have hcast : ((n : Rat) * (3 / 2)) = ((n * 3 : Nat) : Rat) / ((2 : Nat) : Rat) := by
      push_cast
      ring
    rw [hcast, Nat.floor_div_nat, Nat.floor_natCast]
  · rw [if_neg hocc, if_neg hocc]

/-- Claim C10 counterexample: with a required cardiology specialty and
no matching active shift, the specialty filter removes the candidate
outright: the routing pipeline does hard-exclude non-matching
facilities. -/
theorem claim_C10_counterexample :
    specialty_available [] 0 ⟨1, "UPA", true, true, true, [], 50, 30⟩
      ["CARDIOLOGIA"] = false ∧
    filter_by_specialty [] 0 [⟨1, "UPA", true, true, true, [], 50, 30⟩]
      ["CARDIOLOGIA"] = [] :=
  ⟨rfl, rfl⟩

/-- Claim C10 (amended): with a non-empty required-specialties list
the candidate filter keeps exactly the facilities with a
currently-staffed matching specialty (non-matching ones are
hard-excluded); within the scorer a staffed match is worth exactly 25
points before the zero clamp, and the returned clamped score is
exactly 25 higher whenever the without-match score is nonnegative. -/
theorem claim_C10_specialty_bonus :
    (∀ (shifts : List MedicalShift) (today : Nat) (facilities : List Facility)
       (specialties : List String) (f : Facility),
      f ∈ filter_by_specialty shifts today facilities specialties ↔
        f ∈ facilities ∧ specialty_available shifts today f specialties = true) ∧
    (∀ (f : Facility) (pc fc : String) (dist : Option Rat) (specs : List String)
       (shifts1 shifts2 : List MedicalShift) (today : Nat),
      specs ≠ [] →
      specialty_available shifts1 today f specs = true →
      specialty_available shifts2 today f specs = false →
      facility_score_raw f pc fc dist specs shifts1 today =
        facility_score_raw f pc fc dist specs shifts2 today + 25 ∧
      (0 ≤ facility_score_raw f pc fc dist specs shifts2 today →
        calculate_facility_score f pc fc dist specs shifts1 today =
          calculate_facility_score f pc fc dist specs shifts2 today + 25)) := by
  constructor
  · intro shifts today facilities specs f
    unfold filter_by_specialty
    exact List.mem_filter
  · intro f pc fc dist specs shifts1 shifts2 today hne h1 h2
    have hb1 : specialty_bonus shifts1 today f specs = 25 := by
      unfold specialty_bonus
      rw [if_pos ⟨hne, h1⟩]
    have hb2 : specialty_bonus shifts2 today f specs = 0 := by
      unfold specialty_bonus
      rw [if_neg]
      rintro ⟨-, hcon⟩
      rw [h2] at hcon
      exact Bool.noConfusion hcon
    have hraw : facility_score_raw f pc fc dist specs shifts1 today =
        facility_score_raw f pc fc dist specs shifts2 today + 25 := by
      unfold facility_score_raw
      rw [hb1, hb2]
      ring
    refine ⟨hraw, fun hpos => ?_⟩
    unfold calculate_facility_score
    rw [hraw, max_eq_right hpos, max_eq_right (by linarith)]

/-- Claim C10 witness: an urgent-care candidate at half occupancy with
and without a staffed cardiology shift. -/
theorem claim_C10_specialty_bonus_witness :
    (⟨1, "UPA", true, true, true, [], 50, 30⟩ : Facility) ∈
      filter_by_specialty [⟨1, "CARDIOLOGIA", 0, "ACTIVE"⟩] 0
        [⟨1, "UPA", true, true, true, [], 50, 30⟩] ["CARDIOLOGIA"] ∧
    facility_score_raw ⟨1, "UPA", true, true, true, [], 50, 30⟩ "YELLOW" "headache"
        none ["CARDIOLOGIA"] [⟨1, "CARDIOLOGIA", 0, "ACTIVE"⟩] 0 =
      facility_score_raw ⟨1, "UPA", true, true, true, [], 50, 30⟩ "YELLOW" "headache"
        none ["CARDIOLOGIA"] [] 0 + 25 ∧
    calculate_facility_score ⟨1, "UPA", true, true, true, [], 50, 30⟩ "YELLOW" "headache"
        none ["CARDIOLOGIA"] [⟨1, "CARDIOLOGIA", 0, "ACTIVE"⟩] 0 =
      calculate_facility_score ⟨1, "UPA", true, true, true, [], 50, 30⟩ "YELLOW" "headache"
        none ["CARDIOLOGIA"] [] 0 + 25 := by
  have hmain := claim_C10_specialty_bonus.2
    ⟨1, "UPA", true, true, true, [], 50, 30⟩ "YELLOW" "headache" none
    ["CARDIOLOGIA"] [⟨1, "CARDIOLOGIA", 0, "ACTIVE"⟩] [] 0
    (by decide) rfl rfl
  refine ⟨?_, hmain.1, hmain.2 ?_⟩
  · exact (claim_C10_specialty_bonus.1 [⟨1, "CARDIOLOGIA", 0, "ACTIVE"⟩] 0
      [⟨1, "UPA", true, true, true, [], 50, 30⟩] ["CARDIOLOGIA"]
      ⟨1, "UPA", true, true, true, [], 50, 30⟩).mpr ⟨List.mem_singleton.mpr rfl, rfl⟩
  · with_unfolding_all decide
